import Mathlib

/-!
Verification development for the Race-Number-Radar pipeline (`src/run.py`).

The Python source is shallowly embedded: pure computations (response
parsing, digit-run extraction, the JPEG quality loop, configuration
precedence) become Lean functions; the tenacity retry decorator becomes an
explicit attempt-counting wrapper; exceptions become an `Except` over a
small error type; the thread-pool dispatcher becomes a step relation on a
scheduler state.  Strings are modelled over `List Char` with ASCII
semantics for `str.strip`, `str.lower`, and the `re.findall` digit class.
-/

namespace RaceNumberRadar

/-- Exception taxonomy of the Python program.  `apiErrorTransient` and
`apiErrorFatal` both model `openai.APIError` subclasses (the tenacity
predicate `retry_if_exception_type(APIError)` matches either); `decodeError`
models a PIL decoding failure, `osError` a filesystem error such as
`FileNotFoundError` from `os.scandir`, and `otherError` any other
`Exception`. -/
inductive PyError
  | apiErrorTransient
  | apiErrorFatal
  | decodeError
  | osError
  | otherError
  deriving DecidableEq, Repr

/-- `isinstance(e, APIError)`: the class that tenacity retries on. -/
def isAPIError : PyError → Bool
  | PyError.apiErrorTransient => true
  | PyError.apiErrorFatal => true
  | _ => false

/-! ## Python string primitives (`str.strip`, `str.lower`, `in`, `re.findall`) -/

/-- `str.strip()`: drop leading and trailing whitespace. -/
def pyStrip (s : List Char) : List Char :=
  ((s.dropWhile Char.isWhitespace).reverse.dropWhile Char.isWhitespace).reverse

/-- `str.lower()` (ASCII model). -/
def pyLower (s : List Char) : List Char := s.map Char.toLower

/-- `completion.choices[0].message.content.strip().lower()` (run.py:170). -/
def normalizeResponse (raw : String) : List Char := pyLower (pyStrip raw.toList)

/-- Does `s` start with `pat`? -/
def listStartsWith : List Char → List Char → Bool
  | [], _ => true
  | _ :: _, [] => false
  | p :: ps, c :: cs => p == c && listStartsWith ps cs

/-- Python substring containment `pat in s`. -/
def containsSub (pat : List Char) : List Char → Bool
  | [] => listStartsWith pat []
  | c :: cs => listStartsWith pat (c :: cs) || containsSub pat cs

/-- Maximal runs of characters satisfying `p`, accumulator-based scanner.
`acc` holds the current (reversed) in-progress run. -/
def runsByAux (p : Char → Bool) : List Char → List Char → List (List Char)
  | [], acc => if acc.isEmpty then [] else [acc.reverse]
  | c :: cs, acc =>
    if p c then runsByAux p cs (c :: acc)
    else if acc.isEmpty then runsByAux p cs []
    else acc.reverse :: runsByAux p cs []

/-- Maximal runs of characters satisfying `p`, in order of appearance. -/
def runsBy (p : Char → Bool) (s : List Char) : List (List Char) :=
  runsByAux p s []

/-- `re.findall(r"\d+", s)` (run.py:175): maximal decimal-digit runs. -/
def digitRuns (s : List Char) : List (List Char) :=
  runsBy Char.isDigit s

/-- Whitespace-delimited words of a text (used to state that the "none"
check is a substring test rather than a word-token test). -/
def wordsOf (s : List Char) : List (List Char) :=
  runsBy (fun c => !c.isWhitespace) s

/-- The response-parsing step of `process_single_image` (run.py:170-179):
normalize, suppress on substring "none" or empty, else extract digit runs
and keep those whose length is within `[minLen, maxLen]`. -/
def parse_response (raw : String) (minLen maxLen : Nat) : List String :=
  if containsSub ("none".toList) (normalizeResponse raw) ||
      (normalizeResponse raw).isEmpty then []
  else
    ((digitRuns (normalizeResponse raw)).map (fun r => String.mk r)).filter
      (fun num => decide (minLen ≤ num.length ∧ num.length ≤ maxLen))

/-- Specification predicate: `rs` is the in-order list of all maximal
nonempty runs of `p`-characters of the text.  `run` requires the run to be
maximal on the right (the remaining text does not start with a
`p`-character); maximality on the left is forced because the preceding
constructor consumed a non-`p` character or the text began there. -/
inductive RunsSpec (p : Char → Bool) : List Char → List (List Char) → Prop
  | nil : RunsSpec p [] []
  | skip (c : Char) (cs : List Char) (rs : List (List Char)) :
      p c = false → RunsSpec p cs rs → RunsSpec p (c :: cs) rs
  | run (r cs : List Char) (rs : List (List Char)) :
      r ≠ [] → (∀ c ∈ r, p c = true) →
      (∀ c, cs.head? = some c → p c = false) →
      RunsSpec p cs rs → RunsSpec p (r ++ cs) (r :: rs)

theorem runsByAux_spec (p : Char → Bool) :
    ∀ (cs acc : List Char), (∀ a ∈ acc, p a = true) →
      RunsSpec p (acc.reverse ++ cs) (runsByAux p cs acc) := by
  intro cs
  induction cs with
  | nil =>
    intro acc hacc
    by_cases hacc0 : acc = []
    · subst hacc0
      simpa [runsByAux] using RunsSpec.nil (p := p)
    · have hne : acc.isEmpty = false := by
        cases acc with
        | nil => exact absurd rfl hacc0
        | cons a as => rfl
      rw [runsByAux, hne]
      simp only [Bool.false_eq_true, if_false, List.append_nil]
      have := RunsSpec.run (p := p) acc.reverse [] []
        (by simpa using hacc0)
        (by intro c hc; exact hacc c (List.mem_reverse.mp hc))
        (by intro c hc; simp at hc)
        RunsSpec.nil
      simpa using this
  | cons c cs ih =>
    intro acc hacc
    by_cases hpc : p c = true
    · rw [runsByAux, hpc]
      simp only [if_true]
      have := ih (c :: acc) (by
        intro a ha
        rcases List.mem_cons.mp ha with h | h
        · subst h; exact hpc
        · exact hacc a h)
      simpa [List.reverse_cons, List.append_assoc] using this
    · have hpc' : p c = false := by
        cases h : p c
        · rfl
        · exact absurd h hpc
      by_cases hacc0 : acc = []
      · subst hacc0
        rw [runsByAux, hpc']
        simp only [Bool.false_eq_true, if_false, List.isEmpty_nil, if_true,
          List.reverse_nil, List.nil_append]
        exact RunsSpec.skip c cs _ hpc' (by simpa using ih [] (by intro a ha; simp at ha))
      · have hne : acc.isEmpty = false := by
          cases acc with
          | nil => exact absurd rfl hacc0
          | cons a as => rfl
        rw [runsByAux, hpc', hne]
        simp only [Bool.false_eq_true, if_false]
        exact RunsSpec.run acc.reverse (c :: cs) _
          (by simpa using hacc0)
          (by intro a ha; exact hacc a (List.mem_reverse.mp ha))
          (by intro a ha; simp at ha; rw [← ha]; exact hpc')
          (RunsSpec.skip c cs _ hpc'
            (by simpa using ih [] (by intro a ha; simp at ha)))

/-- `runsBy` computes exactly the maximal-run decomposition. -/
theorem runsBy_spec (p : Char → Bool) (s : List Char) :
    RunsSpec p s (runsBy p s) := by
  simpa using runsByAux_spec p s [] (by intro a ha; simp at ha)

/-! ## Built-in defaults (run.py:26-32) -/

def DEFAULT_API_MODEL : String := "qwen/qwen2.5-vl-32b-instruct"

def DEFAULT_WORKERS : Nat := 8

def DEFAULT_MIN_BIB_LEN : Nat := 3

def DEFAULT_MAX_BIB_LEN : Nat := 4

def DEFAULT_MAX_SIZE_KB : Nat := 1500

/-! ## Configuration precedence (run.py:230-240)

Each effective value is computed as `cli or config.get(key, default)`.
Python `or` yields its right operand whenever the left is falsy: `None`,
the number `0`, or the empty string.  `config.get(key, default)` yields the
stored value when the key is present, else the default. -/

/-- Python `cli or fallback` for an optional numeric CLI flag: `None` and
`0` are falsy. -/
def pyOrNat (cli : Option Nat) (fallback : Nat) : Nat :=
  match cli with
  | none => fallback
  | some v => if v = 0 then fallback else v

/-- Python `cli or fallback` for an optional string CLI flag: `None` and
`""` are falsy. -/
def pyOrStr (cli : Option String) (fallback : String) : String :=
  match cli with
  | none => fallback
  | some v => if v = "" then fallback else v

/-- `config.get(key, default)`. -/
def configGet (cfg : Option Nat) (dflt : Nat) : Nat := cfg.getD dflt

/-- `effective_x = x or config.get("x", DEFAULT_X)` (run.py:230-240). -/
def effectiveNat (cli cfg : Option Nat) (dflt : Nat) : Nat :=
  pyOrNat cli (configGet cfg dflt)

/-- String variant for `api_model`. -/
def effectiveStr (cli cfg : Option String) (dflt : String) : String :=
  pyOrStr cli (cfg.getD dflt)

/-- The five optional CLI flags of the `process` command (run.py:190-204). -/
structure CliArgs where
  api_model : Option String
  workers : Option Nat
  min_bib_len : Option Nat
  max_bib_len : Option Nat
  max_size_kb : Option Nat
  deriving DecidableEq, Repr

/-- The optional keys of the persisted `config.json` (run.py:42-52). -/
structure ConfigFile where
  api_model : Option String
  workers : Option Nat
  min_bib_len : Option Nat
  max_bib_len : Option Nat
  max_size_kb : Option Nat
  deriving DecidableEq, Repr

/-- The values a run actually uses at each consuming site, together with
the model name it prints.  Distinguishing the printed model from the
requested model matters: run.py:250 prints `effective_api_model`, but the
chat-completion request at run.py:156 hard-codes `model=DEFAULT_API_MODEL`,
and the encoder call `image_to_base64_uri(image)` at run.py:144 passes no
`max_size_kb`, so the encoder runs with its default parameter value. -/
structure RunParams where
  printedModel : String
  requestModel : String
  poolWorkers : Nat
  taskMinLen : Nat
  taskMaxLen : Nat
  encoderMaxKB : Nat
  deriving DecidableEq, Repr

/-- The run-parameter flow of `process`: the `effective_*` assignments at
run.py:230-240 feed `Using model:` (run.py:250), the thread pool bound
(run.py:263) and the bib-length arguments (run.py:270-271); the request
model (run.py:156) and the encoder size bound (run.py:144) do not receive
the effective values. -/
def processRunParams (cli : CliArgs) (cfg : ConfigFile) : RunParams :=
  { printedModel := effectiveStr cli.api_model cfg.api_model DEFAULT_API_MODEL
    requestModel := DEFAULT_API_MODEL
    poolWorkers := effectiveNat cli.workers cfg.workers DEFAULT_WORKERS
    taskMinLen := effectiveNat cli.min_bib_len cfg.min_bib_len DEFAULT_MIN_BIB_LEN
    taskMaxLen := effectiveNat cli.max_bib_len cfg.max_bib_len DEFAULT_MAX_BIB_LEN
    encoderMaxKB := DEFAULT_MAX_SIZE_KB }

/-! ## Image encoder quality loop (run.py:105-113)

`buffered.tell()` is the JPEG byte size at the current quality; the loop
condition `buffered.tell() / 1024 <= max_size_kb` divides by the power of
two 1024, which is exact in ieee float arithmetic, so it is equivalent to
`bytes ≤ max_size_kb * 1024`.  The encoded size is modelled as an abstract
function `size : quality → bytes`. -/

/-- The `while True` quality loop: break when the payload fits or quality
is at most 10, else lower quality by 5. -/
def encodeQuality (size : Nat → Nat) (maxKB : Nat) (q : Nat) : Nat :=
  if size q ≤ maxKB * 1024 ∨ q ≤ 10 then q
  else encodeQuality size maxKB (q - 5)
termination_by q
decreasing_by
  simp only [not_or, not_le] at *
  omega

/-- `image_to_base64_uri`: starts the loop at quality 95 and returns the
encoded payload; modelled as the pair (final quality, final byte size). -/
def image_to_base64_uri (size : Nat → Nat) (maxKB : Nat) : Nat × Nat :=
  let q := encodeQuality size maxKB 95
  (q, size q)

theorem encodeQuality_spec (size : Nat → Nat) (maxKB : Nat) :
    ∀ q : Nat, q % 5 = 0 → 10 ≤ q →
      10 ≤ encodeQuality size maxKB q ∧
      encodeQuality size maxKB q ≤ q ∧
      (size (encodeQuality size maxKB q) ≤ maxKB * 1024 ∨
        encodeQuality size maxKB q = 10) := by
  intro q
  induction q using Nat.strong_induction_on with
  | _ q ih =>
    intro hmod hge
    rw [encodeQuality]
    split
    · rename_i hcond
      refine ⟨hge, le_refl q, ?_⟩
      rcases hcond with h | h
      · exact Or.inl h
      · exact Or.inr (le_antisymm h hge)
    · rename_i hcond
      push_neg at hcond
      obtain ⟨hsize, hq10⟩ := hcond
      have hq15 : 15 ≤ q := by omega
      have hlt : q - 5 < q := by omega
      have := ih (q - 5) hlt (by omega) (by omega)
      exact ⟨this.1, le_trans this.2.1 (by omega), this.2.2⟩

/-! ## tenacity retry wrapper and `process_single_image` (run.py:116-184)

The decorator `@retry(stop=stop_after_attempt(5), wait=wait_exponential(...),
retry=retry_if_exception_type(APIError))` calls the function; when the call
raises an `APIError` and fewer than 5 attempts have been made it sleeps and
calls again, otherwise it re-raises; a normal return ends the loop at once.
`tenacityRun` returns the number of attempts actually made together with
the final outcome. -/

def tenacityRun {α : Type} (retryOn : PyError → Bool)
    (f : Nat → Except PyError α) : Nat → Nat → Nat × Except PyError α
  | attempt, remaining =>
    match f attempt with
    | Except.ok a => (attempt, Except.ok a)
    | Except.error e =>
      match remaining with
      | 0 => (attempt, Except.error e)
      | r + 1 =>
        if retryOn e then tenacityRun retryOn f (attempt + 1) r
        else (attempt, Except.error e)

/-- The body of `process_single_image` (run.py:141-184).  `outcome` is the
result of the fallible work inside the `try` block (image open/convert,
thumbnail, base64 encoding, and the remote chat-completion call), yielding
the raw response text on success.  The blanket `except Exception` at
run.py:182 catches EVERY exception — including `openai.APIError`, which is
an `Exception` subclass — and returns `(file_path, [])`. -/
def process_single_image_body (fp : String) (outcome : Except PyError String)
    (minLen maxLen : Nat) : String × List String :=
  match outcome with
  | Except.error _ => (fp, [])
  | Except.ok raw => (fp, parse_response raw minLen maxLen)

/-- `process_single_image` as wrapped by the tenacity decorator:
`attemptOutcome n` is what the `try` block's fallible work would produce on
attempt `n`.  First attempt is number 1; `stop_after_attempt(5)` allows 4
further attempts.  Returns (attempts made, outcome seen by the caller). -/
def process_single_image (fp : String) (attemptOutcome : Nat → Except PyError String)
    (minLen maxLen : Nat) : Nat × Except PyError (String × List String) :=
  tenacityRun isAPIError
    (fun n => Except.ok (process_single_image_body fp (attemptOutcome n) minLen maxLen))
    1 4

/-! ## Aggregator (run.py:258, 276-291, 298-306)

`number_to_images` is a `defaultdict(list)`; each detected number appends
the file path (run.py:281).  The organizing step deduplicates with
`set(images)` (run.py:301), so the final identifier → image-set mapping is
the `toFinset` of each bucket list. -/

/-- `number_to_images[number].append(file_path)` on a total-function model
of the defaultdict. -/
def bucketAdd (m : String → List String) (number fp : String) :
    String → List String :=
  fun k => if k = number then m k ++ [fp] else m k

/-- Final per-identifier image set, as materialized by `set(images)` at
run.py:301. -/
def finalBucket (m : String → List String) (number : String) : Finset String :=
  (m number).toFinset

/-! ## Startup of the `process` command (run.py:242-274)

Order of operations: `scan_directory` (which calls `os.scandir` and lets a
`FileNotFoundError` for a nonexistent directory propagate uncaught), then
the empty-file-list check with a printed error, then client construction
guarded by `try/except` with a printed error, then dispatch of the thread
pool.  The outcome distinguishes a crash via unhandled exception, a
graceful abort that printed a clear message, and reaching dispatch. -/

/-- `os.path.splitext` extension (including the dot) of a file NAME:
the part from the last dot, except that leading dots of the name carry no
extension (`.jpg` has none). -/
def revSplitAtDot : List Char → Option (List Char × List Char)
  | [] => none
  | c :: cs =>
    if c = '.' then some ([], cs)
    else (revSplitAtDot cs).map (fun pr => (c :: pr.1, pr.2))

def extOf (name : List Char) : List Char :=
  match revSplitAtDot name.reverse with
  | none => []
  | some (extRev, beforeRev) =>
    if beforeRev.all (fun c => c = '.') then []
    else '.' :: extRev.reverse

def supportedExtensions : List String := [".jpg", ".jpeg", ".png", ".webp"]

/-- `os.path.splitext(item.name)[1].lower() in supported_extensions`
(run.py:84). -/
def hasSupportedExt (name : String) : Bool :=
  supportedExtensions.contains (String.mk (pyLower (extOf name.toList)))

/-- `scan_directory` (run.py:71-86): the directory is `none` when it does
not exist (then `os.scandir` raises, modelled as `osError`), otherwise the
list of its regular files' names, filtered by supported extension. -/
def scan_directory (dir : Option (List String)) : Except PyError (List String) :=
  match dir with
  | none => Except.error PyError.osError
  | some names => Except.ok (names.filter hasSupportedExt)

inductive StartupOutcome
  | crashed (e : PyError)
  | abortedMsg (msg : String)
  | dispatched (files : List String)
  deriving DecidableEq, Repr

/-- Did the run end in a graceful abort that showed the user a printed
error message (as opposed to an unhandled traceback)? -/
def showsClearMessage : StartupOutcome → Bool
  | StartupOutcome.abortedMsg _ => true
  | _ => false

/-- The startup phase of `process` (run.py:242-262): scan, empty check,
client construction, then dispatch.  `clientOk` is whether
`OpenAI(base_url=..., api_key=...)` constructs without raising. -/
def processStartup (dir : Option (List String)) (clientOk : Bool) :
    StartupOutcome :=
  match scan_directory dir with
  | Except.error e => StartupOutcome.crashed e
  | Except.ok files =>
    if files.isEmpty then StartupOutcome.abortedMsg "No image files found."
    else if clientOk then StartupOutcome.dispatched files
    else StartupOutcome.abortedMsg "Failed to initialize API client"

/-! ## Bounded-concurrency dispatcher (run.py:262-274)

`ThreadPoolExecutor(max_workers=W)` runs at most `W` submitted tasks at a
time; a queued task starts only when a worker is free.  That scheduling
discipline is modelled as a step relation on counts of pending, running
and completed tasks; `start` is guarded by `running < W`. -/

structure SchedState where
  pending : Nat
  running : Nat
  completed : Nat
  deriving DecidableEq, Repr

/-- One scheduler transition of the worker pool with bound `W`. -/
inductive SchedStep (W : Nat) : SchedState → SchedState → Prop
  | start (s : SchedState) : 0 < s.pending → s.running < W →
      SchedStep W s ⟨s.pending - 1, s.running + 1, s.completed⟩
  | finish (s : SchedState) : 0 < s.running →
      SchedStep W s ⟨s.pending, s.running - 1, s.completed + 1⟩

/-- States reachable from `init` by scheduler transitions. -/
inductive SchedReachable (W : Nat) (init : SchedState) : SchedState → Prop
  | refl : SchedReachable W init init
  | step {s t : SchedState} : SchedReachable W init s → SchedStep W s t →
      SchedReachable W init t

/-- Initial state: all `n` classification tasks submitted and pending,
none running (run.py:265-274 submits every file up front). -/
def initState (n : Nat) : SchedState := ⟨n, 0, 0⟩

/-! ## Claim theorems -/

/-- Claim C1 (code bug): the spec and the function's own docstring say a
task whose remote call raises `APIError` on every attempt is attempted 5
times with backoff; in the code the blanket `except Exception`
(run.py:182) catches the `APIError` — an `Exception` subclass — inside the
`try` block, so the tenacity wrapper sees a normal return: exactly ONE
attempt is made, with no backoff, and `(file_path, [])` is returned.  The
second conjunct shows the retry wrapper itself would indeed have made 5
attempts had the `APIError` escaped the body, confirming the blanket
`except` as the culprit. -/
theorem C1_retry_swallowed_by_blanket_except (fp : String) (minLen maxLen : Nat) :
    process_single_image fp (fun _ => Except.error PyError.apiErrorTransient)
        minLen maxLen
      = (1, Except.ok (fp, [])) ∧
    tenacityRun isAPIError
        (fun _ => (Except.error PyError.apiErrorTransient :
          Except PyError (String × List String))) 1 4
      = (5, Except.error PyError.apiErrorTransient) :=
  ⟨rfl, rfl⟩

/-- Claim C2 (confirmed): whenever the normalized (stripped, lowercased)
response text contains the substring "none" or is empty, parsing returns
the empty identifier list, regardless of digit runs also present
(run.py:172-173). -/
theorem C2_none_or_empty_suppresses (raw : String) (minLen maxLen : Nat)
    (h : containsSub ("none".toList) (normalizeResponse raw) = true ∨
      (normalizeResponse raw).isEmpty = true) :
    parse_response raw minLen maxLen = [] := by
  have hcond : (containsSub ("none".toList) (normalizeResponse raw) ||
      (normalizeResponse raw).isEmpty) = true := by
    rcases h with h | h
    · rw [h, Bool.true_or]
    · rw [h, Bool.or_true]
  rw [parse_response, hcond]
  simp

/-- Witness for C2 at the concrete response " None 123 ", which contains
both the literal "none" and a digit run of valid length. -/
theorem C2_witness : parse_response " None 123 " 3 4 = [] :=
  C2_none_or_empty_suppresses " None 123 " 3 4 (Or.inl (by decide))

/-- Claim C3 (confirmed): a response not suppressed by the "none"/empty
rule parses to exactly the maximal decimal-digit runs of the normalized
text whose length lies in `[minLen, maxLen]`, in order, duplicates
preserved (`digitRuns` provably computes the maximal-run decomposition,
second conjunct); with minLen=3, maxLen=4 the response "12,123,1234,12345"
yields exactly ["123", "1234"]. -/
theorem C3_parse_is_filtered_digit_runs :
    (∀ (raw : String) (minLen maxLen : Nat),
        (containsSub ("none".toList) (normalizeResponse raw) ||
          (normalizeResponse raw).isEmpty) = false →
        parse_response raw minLen maxLen =
          ((digitRuns (normalizeResponse raw)).map (fun r => String.mk r)).filter
            (fun num => decide (minLen ≤ num.length ∧ num.length ≤ maxLen))) ∧
    (∀ s : List Char, RunsSpec Char.isDigit s (digitRuns s)) ∧
    parse_response "12,123,1234,12345" 3 4 = ["123", "1234"] := by
  refine ⟨?_, ?_, by decide⟩
  · intro raw minLen maxLen h
    rw [parse_response, h]
    simp
  · intro s
    exact runsBy_spec Char.isDigit s

/-- Witness for C3: the unsuppressed response "12,99,777" parses to the
length-filtered digit runs. -/
theorem C3_witness :
    parse_response "12,99,777" 3 4 =
      ((digitRuns (normalizeResponse "12,99,777")).map (fun r => String.mk r)).filter
        (fun num => decide (3 ≤ num.length ∧ num.length ≤ 4)) :=
  C3_parse_is_filtered_digit_runs.1 "12,99,777" 3 4 (by decide)

/-- Claim C4 (confirmed): re-adding the same (image, identifier) pair is a
no-op on the final identifier → image-set mapping: appending the path
twice to the bucket list (run.py:281) yields the same `set(images)`
(run.py:301), and the image is a member of the final bucket. -/
theorem C4_bucket_membership_idempotent (m : String → List String)
    (number fp : String) :
    finalBucket (bucketAdd (bucketAdd m number fp) number fp) number =
      finalBucket (bucketAdd m number fp) number ∧
    fp ∈ finalBucket (bucketAdd m number fp) number := by
  constructor
  · ext x
    simp [finalBucket, bucketAdd, List.mem_append]
  · simp [finalBucket, bucketAdd]

/-- Claim C5 (confirmed): a per-image error other than a retryable service
error raised inside the `try` block is caught by `except Exception`
(run.py:182) and converted into a normal `(file_path, [])` return on the
first attempt, so nothing propagates to the dispatcher's
`future.result()` and no other task is affected. -/
theorem C5_per_image_errors_contained (fp : String) (minLen maxLen : Nat)
    (e : PyError) (_h : e ≠ PyError.apiErrorTransient) :
    process_single_image fp (fun _ => Except.error e) minLen maxLen
      = (1, Except.ok (fp, [])) :=
  rfl

/-- Witness for C5 at a concrete decode error on a corrupt image file. -/
theorem C5_witness :
    process_single_image "corrupt.jpg" (fun _ => Except.error PyError.decodeError) 3 4
      = (1, Except.ok ("corrupt.jpg", [])) :=
  C5_per_image_errors_contained "corrupt.jpg" 3 4 PyError.decodeError (by decide)

/-- Claim C6 (confirmed): for every image (abstract size function) and
every `max_size_kb`, the quality loop starting at 95 terminates (the model
is a total function), the final quality lies in `[10, 95]`, and on return
either the payload byte size is at most `max_size_kb` kilobytes or the
floor quality 10 was reached — the encoder never fails on size alone
(run.py:105-113). -/
theorem C6_encoder_terminates_within_bounds (size : Nat → Nat) (maxKB : Nat) :
    ((image_to_base64_uri size maxKB).2 ≤ maxKB * 1024 ∨
      (image_to_base64_uri size maxKB).1 = 10) ∧
    10 ≤ (image_to_base64_uri size maxKB).1 ∧
    (image_to_base64_uri size maxKB).1 ≤ 95 := by
  have h := encodeQuality_spec size maxKB 95 (by decide) (by decide)
  exact ⟨h.2.2, h.1, h.2.1⟩

/-- Claim C7 (code bug): the precedence chain CLI > config > default is
the documented intent — every flag's help text says "overrides config" and
run.py:250 prints the chosen model — but the run does not use two of the
five effective values: the request hard-codes `model=DEFAULT_API_MODEL`
(run.py:156) and the encoder call passes no `max_size_kb` (run.py:144).
Evaluated at a run with `--api-model some-other/model`,
`--max-size-kb 500` and `--min-bib-len 0` against a config holding
`min_bib_len = 7`: the run prints the overridden model yet requests the
default model and encodes against the default 1500 KB bound; the falsy
flag 0 is also dropped by the Python `or` at run.py:232-234, yielding min
length 7.  The workers bound, by contrast, is threaded through (its
default 8 is used here, no flag or key given). -/
theorem C7_effective_values_not_threaded_through :
    (processRunParams
        ⟨some "some-other/model", none, some 0, none, some 500⟩
        ⟨none, none, some 7, none, none⟩).printedModel = "some-other/model" ∧
    (processRunParams
        ⟨some "some-other/model", none, some 0, none, some 500⟩
        ⟨none, none, some 7, none, none⟩).requestModel = DEFAULT_API_MODEL ∧
    DEFAULT_API_MODEL ≠ "some-other/model" ∧
    (processRunParams
        ⟨some "some-other/model", none, some 0, none, some 500⟩
        ⟨none, none, some 7, none, none⟩).encoderMaxKB = DEFAULT_MAX_SIZE_KB ∧
    DEFAULT_MAX_SIZE_KB ≠ 500 ∧
    (processRunParams
        ⟨some "some-other/model", none, some 0, none, some 500⟩
        ⟨none, none, some 7, none, none⟩).taskMinLen = 7 ∧
    (processRunParams
        ⟨some "some-other/model", none, some 0, none, some 500⟩
        ⟨none, none, some 7, none, none⟩).poolWorkers = DEFAULT_WORKERS := by
  refine ⟨rfl, rfl, by decide, rfl, by decide, by decide, rfl⟩

/-- Counterexample to claim C8 as stated: with a nonexistent scanned
directory, `os.scandir` raises inside `scan_directory` (run.py:83) and
`process` does not catch it (run.py:242), so the run dies with an
unhandled exception rather than showing a clear error message. -/
theorem C8_counterexample :
    processStartup none true = StartupOutcome.crashed PyError.osError ∧
    showsClearMessage (processStartup none true) = false := by
  decide

/-- Claim C8 (corrected): every fatal startup condition aborts the run
before any classification task is dispatched; the empty-directory and
client-construction failures print a clear error message, but a
nonexistent directory aborts via an unhandled exception; dispatch is
reached only with an existing directory holding supported images and a
successfully constructed client. -/
theorem C8_startup_amended (dir : Option (List String)) (clientOk : Bool) :
    (dir = none →
      processStartup dir clientOk = StartupOutcome.crashed PyError.osError) ∧
    (∀ names, dir = some names → (names.filter hasSupportedExt).isEmpty = true →
      processStartup dir clientOk = StartupOutcome.abortedMsg "No image files found.") ∧
    (∀ names, dir = some names → (names.filter hasSupportedExt).isEmpty = false →
      clientOk = false →
      processStartup dir clientOk =
        StartupOutcome.abortedMsg "Failed to initialize API client") ∧
    (∀ files, processStartup dir clientOk = StartupOutcome.dispatched files →
      clientOk = true ∧ ∃ names, dir = some names ∧
        (names.filter hasSupportedExt).isEmpty = false) := by
  refine ⟨?_, ?_, ?_, ?_⟩
  · rintro rfl
    rfl
  · rintro names rfl h
    simp [processStartup, scan_directory, h]
  · rintro names rfl h rfl
    simp [processStartup, scan_directory, h]
  · intro files h
    rcases dir with _ | names
    · exact absurd h (by simp [processStartup, scan_directory])
    · cases hc : clientOk with
      | false =>
        subst hc
        by_cases he : (names.filter hasSupportedExt).isEmpty
        · simp [processStartup, scan_directory, he] at h
        · simp [processStartup, scan_directory, he] at h
      | true =>
        subst hc
        refine ⟨rfl, names, rfl, ?_⟩
        by_cases he : (names.filter hasSupportedExt).isEmpty
        · simp [processStartup, scan_directory, he] at h
        · simpa using he

/-- Witness for the amended C8: a directory with only "notes.txt" holds no
supported images, so the run aborts with the printed message. -/
theorem C8_witness :
    processStartup (some ["notes.txt"]) true =
      StartupOutcome.abortedMsg "No image files found." :=
  (C8_startup_amended (some ["notes.txt"]) true).2.1 ["notes.txt"] rfl (by decide)

/-- Claim C9 (confirmed): with worker-pool bound `W`, every scheduler
state reachable from the initial state (all tasks pending) has at most `W`
tasks running: the `start` transition is guarded by `running < W`, which
models `ThreadPoolExecutor(max_workers=W)` starting a queued task only
when a worker is free (run.py:262-264). -/
theorem C9_concurrency_bound (W n : Nat) (s : SchedState)
    (h : SchedReachable W (initState n) s) : s.running ≤ W := by
  induction h with
  | refl => exact Nat.zero_le W
  | step hr hs ih =>
    cases hs with
    | start hp hw => exact hw
    | finish hr0 => exact Nat.le_trans (Nat.sub_le _ _) ih

/-- Witness for C9 at `W = 2` and 10 tasks, after starting one task. -/
theorem C9_witness : (⟨9, 1, 0⟩ : SchedState).running ≤ 2 :=
  C9_concurrency_bound 2 10 ⟨9, 1, 0⟩
    (SchedReachable.step SchedReachable.refl
      (SchedStep.start (initState 10) (by decide) (by decide)))

/-- Counterexample to claim C10 as stated: its example "phone: 1234" does
NOT contain "none" as a substring ("phone" contains "hone"), so the
suppression does not fire and parsing returns ["1234"], not the empty
sequence the claim asserts. -/
theorem C10_counterexample :
    containsSub ("none".toList) (normalizeResponse "phone: 1234") = false ∧
    parse_response "phone: 1234" 3 4 = ["1234"] := by
  decide

/-- Claim C10 (corrected): the "none" suppression is a substring test on
the lowercased response, not a word-token test: "nonessential 1234"
contains "none" only inside the longer word "nonessential" (no
whitespace-delimited word equals "none"), carries the valid-length digit
run "1234", and still parses to the empty sequence. -/
theorem C10_substring_not_token_suppression :
    containsSub ("none".toList) (normalizeResponse "nonessential 1234") = true ∧
    ¬ ("none".toList ∈ wordsOf (normalizeResponse "nonessential 1234")) ∧
    ['1', '2', '3', '4'] ∈ digitRuns (normalizeResponse "nonessential 1234") ∧
    parse_response "nonessential 1234" 3 4 = [] := by
  decide

end RaceNumberRadar
